import Mathlib

set_option autoImplicit false

/-
Shallow embedding of `src/main.py` (osu! Most-Played Map Downloader).

The program is a sequential pipeline:
  sanitize_filename  : pure string cleaning (re.sub of a character class);
  retrieve_most_played_beatmaps : paginated fetch loop over
      range(offset, offset + limit, 10), modelled with the HTTP server as an
      explicit function from the call number to a response, and with the
      offsets attempted, the sleeps performed and the accumulated items
      returned explicitly;
  download_single_beatmap : one streaming download, modelled with the network
      outcome (response or raised exception) as an explicit event, returning
      the success flag, the file written (name and bytes), the log lines,
      the request url and the query parameters;
  download_beatmaps : the batch loop, with the single-item downloader
      abstracted as a boolean-valued function, returning the accumulated
      failure list and the content of failed_downloads.txt (if written).

Python dictionary values are embedded as `JVal`, with Python truthiness made
explicit (`dict.get` returns `jnull` for a missing key, and `a or b` picks
`b` whenever `a` is falsy).  One deliberate totalisation: `.get` on a value
that is not a dictionary returns `jnull` in the model, where CPython would
raise `AttributeError` and abort the run; theorems about record extraction
therefore carry a `wfRecord` hypothesis confining them to records on which
the Python run completes.
-/

namespace OsuDl

/-- JSON-like Python values as they appear in decoded API responses. -/
inductive JVal where
  | jnull
  | jbool (b : Bool)
  | jint (n : Int)
  | jstr (s : String)
  | jobj (fields : List (String × JVal))
  | jlist (xs : List JVal)

/-- Python truthiness of an embedded value. -/
def truthy : JVal → Bool
  | .jnull => false
  | .jbool b => b
  | .jint n => decide (n ≠ 0)
  | .jstr s => !s.isEmpty
  | .jobj f => !f.isEmpty
  | .jlist l => !l.isEmpty

/-- Python `a or b`: `a` when `a` is truthy, otherwise `b`. -/
def pyOr (a b : JVal) : JVal :=
  if truthy a then a else b

/-- A decoded record: a Python dictionary with string keys. -/
abbrev RecordT : Type := List (String × JVal)

/-- Python `d.get(k, default)` on an embedded dictionary. -/
def dictGetD (f : RecordT) (k : String) (d : JVal) : JVal :=
  match List.lookup k f with
  | some v => v
  | none => d

/-- Python `d.get(k)` on an embedded dictionary (missing key gives `None`). -/
def dictGet (f : RecordT) (k : String) : JVal :=
  dictGetD f k JVal.jnull

/-- Python `v.get(k)` on a value expected to be a dictionary.  For a value
that is not a dictionary the model returns `jnull`; CPython would raise
there, so theorems guard this case with `wfRecord`. -/
def jget (v : JVal) (k : String) : JVal :=
  match v with
  | .jobj f => dictGet f k
  | _ => JVal.jnull

/-- Python `v.get(k, default)` on a value expected to be a dictionary. -/
def jgetD (v : JVal) (k : String) (d : JVal) : JVal :=
  match v with
  | .jobj f => dictGetD f k d
  | _ => d

/-- Python `str` on an embedded value.  The rendering of non-scalar values
is abstracted (identifiers are scalars in every guarded theorem). -/
def pyStr : JVal → String
  | .jnull => "None"
  | .jbool b => if b then "True" else "False"
  | .jint n => toString n
  | .jstr s => s
  | .jobj _ => ""
  | .jlist _ => ""

/-- The character class of `re.sub(r'[\\/*?:"<>|]', '', name)` in
`sanitize_filename`, in the order the source regex lists it. -/
def badChars : List Char :=
  ['\\', '/', '*', '?', ':', '"', '<', '>', '|']

/-- Deleting every character of the regex class, as `re.sub` with an empty
replacement does on the underlying character sequence. -/
def sanitizeChars (l : List Char) : List Char :=
  l.filter (fun c => decide (c ∉ badChars))

/-- `sanitize_filename` from `src/main.py`. -/
def sanitize_filename (name : String) : String :=
  String.mk (sanitizeChars name.toList)

/-- The four boolean download toggles (`main` builds exactly these keys). -/
structure Options where
  nohitsound : Bool
  nostoryboard : Bool
  nobg : Bool
  novideo : Bool

/-- Python `'true' if b else 'false'`. -/
def pyBoolStr (b : Bool) : String :=
  if b then "true" else "false"

/-- The query parameters `download_single_beatmap` builds from the options,
in the order of its loop over `['noHitsound', 'noStoryboard', 'noBg',
'noVideo']` (lower-cased keys). -/
def buildParams (options : Options) : List (String × String) :=
  [("nohitsound", pyBoolStr options.nohitsound),
   ("nostoryboard", pyBoolStr options.nostoryboard),
   ("nobg", pyBoolStr options.nobg),
   ("novideo", pyBoolStr options.novideo)]

/-- The outcome of the single `requests.get` call in
`download_single_beatmap`, made explicit: either an exception is raised
before a response is available, or a response arrives with a status and a
body (a list of chunks), in which case the streaming write may additionally
raise after a given number of chunks have been written. -/
inductive DlEvent where
  | raiseEarly (msg : String)
  | ok (status : Nat) (chunks : List (List Nat)) (writeFail : Option (Nat × String))

/-- What one call of `download_single_beatmap` produces: the boolean return
value, the file left on disk (name and bytes, if any), the printed error
lines, the request url and the query parameters. -/
structure DlResult where
  success : Bool
  file : Option (String × List Nat)
  log : List String
  url : String
  params : List (String × String)

/-- The message printed by the `except` handler of
`download_single_beatmap`. -/
def excMessage (beatmapset_id : JVal) (song_title : String) (msg : String) : String :=
  "Exception during download of " ++ pyStr beatmapset_id ++ " - " ++ song_title ++ ": " ++ msg

/-- `download_single_beatmap` from `src/main.py`.  The status is compared to
200 before any file is opened; the whole request and write are inside one
`try`, whose handler prints and returns `False`. -/
def download_single_beatmap (beatmapset_id : JVal) (song_title : String)
    (options : Options) (ev : DlEvent) : DlResult :=
  let url := "https://api.nerinyan.moe/d/" ++ pyStr beatmapset_id
  let params := buildParams options
  match ev with
  | .raiseEarly msg =>
      ⟨false, none, [excMessage beatmapset_id song_title msg], url, params⟩
  | .ok status chunks writeFail =>
      if status = 200 then
        let filename := pyStr beatmapset_id ++ " - " ++ sanitize_filename song_title ++ ".osz"
        match writeFail with
        | none => ⟨true, some (filename, chunks.flatten), [], url, params⟩
        | some p =>
            ⟨false, some (filename, (chunks.take p.1).flatten),
              [excMessage beatmapset_id song_title p.2], url, params⟩
      else
        ⟨false, none,
          ["Failed to download " ++ pyStr beatmapset_id ++ " - " ++ song_title ++
            ": HTTP " ++ toString status], url, params⟩

/-- Whether a download event actually raises an exception inside the `try`
block: either the request itself raises, or the response is a 200 (so the
streaming write runs) and the write raises. -/
def excRaised : DlEvent → Bool
  | .raiseEarly _ => true
  | .ok status _ writeFail => decide (status = 200) && writeFail.isSome

/-- The message of the exception carried by an exceptional event. -/
def excMsgOf : DlEvent → String
  | .raiseEarly msg => msg
  | .ok _ _ (some p) => p.2
  | .ok _ _ none => ""

/-- What the batch loop decides to do with one record. -/
inductive StepResult where
  | skipNull
  | download (beatmapset_id : JVal) (song_title : JVal)

/-- `beatmap.get("beatmapset") or beatmap.get("beatmap")` from
`download_beatmaps`. -/
def chosenNested (beatmap : RecordT) : JVal :=
  pyOr (dictGet beatmap "beatmapset") (dictGet beatmap "beatmap")

/-- `beatmapset.get("id") or beatmapset.get("beatmapset_id")` on the fields
of the chosen nested dictionary. -/
def chosenId (f : RecordT) : JVal :=
  pyOr (dictGet f "id") (dictGet f "beatmapset_id")

/-- The per-record head of the `download_beatmaps` loop: defensive key
access, the falsiness checks, and the title default. -/
def processRecord (beatmap : RecordT) : StepResult :=
  let beatmapset := chosenNested beatmap
  if truthy beatmapset then
    let beatmapset_id := pyOr (jget beatmapset "id") (jget beatmapset "beatmapset_id")
    let song_title := jgetD beatmapset "title" (JVal.jstr "Unknown Title")
    if truthy beatmapset_id then StepResult.download beatmapset_id song_title
    else StepResult.skipNull
  else StepResult.skipNull

/-- The `download_beatmaps` loop with the single-item downloader abstracted
as `dl`, returning the accumulated `failed_downloads` list (`jnull` is the
Python `None` placeholder). -/
def batchGo (dl : JVal → JVal → Bool) : List RecordT → List JVal
  | [] => []
  | r :: rest =>
    match processRecord r with
    | .skipNull => JVal.jnull :: batchGo dl rest
    | .download idv title =>
        if dl idv title then batchGo dl rest else idv :: batchGo dl rest

/-- The report-writing loop at the end of `download_beatmaps`:
`for fail in failed_downloads: if fail: f.write(str(fail) + "\n")`. -/
def writeFails : List JVal → String
  | [] => ""
  | f :: rest => (if truthy f then pyStr f ++ "\n" else "") ++ writeFails rest

/-- `download_beatmaps` from `src/main.py`: the failure list, and the content
of `failed_downloads.txt` (`none` when the file is not touched). -/
def download_beatmaps (dl : JVal → JVal → Bool) (beatmaps : List RecordT) :
    List JVal × Option String :=
  let failed_downloads := batchGo dl beatmaps
  (failed_downloads,
    if failed_downloads.isEmpty then none else some (writeFails failed_downloads))

/-- Scalar values, on which the model's `pyStr` agrees with Python `str`. -/
def isScalar : JVal → Bool
  | .jobj _ => false
  | .jlist _ => false
  | _ => true

/-- Records on which the Python batch loop runs to completion: whenever the
chosen nested value is truthy it is a dictionary (otherwise CPython raises
`AttributeError` on `.get`), and the identifier it yields is a scalar. -/
def wfRecord (r : RecordT) : Bool :=
  match chosenNested r with
  | JVal.jobj f => isScalar (chosenId f)
  | v => !truthy v

/-- The outcome of one listing-page request in
`retrieve_most_played_beatmaps`: an exception somewhere inside the `try`
(from `requests.get` or `response.json()`), or a response with a status and
a decoded body (`none` models a decoded body that is not a list). -/
inductive PageResp (α : Type) where
  | exc
  | resp (status : Nat) (body : Option (List α))

/-- What a fetch run produces: the accumulated items, the offsets attempted
(in request order), and the sleeps performed (in seconds, in order). -/
structure FetchOut (α : Type) where
  beatmaps : List α
  trace : List Int
  sleeps : List Nat

/-- The body of the `for current_offset in range(...)` loop of
`retrieve_most_played_beatmaps`, one server call per iteration: 429 sleeps
10 seconds, every other branch either skips or extends and sleeps 1 second,
and every branch moves on to the next offset. -/
def fetchGo {α : Type} (server : Nat → PageResp α) : List Int → Nat → FetchOut α
  | [], _ => ⟨[], [], []⟩
  | o :: rest, k =>
    let r := fetchGo server rest (k + 1)
    match server k with
    | .exc => ⟨r.beatmaps, o :: r.trace, r.sleeps⟩
    | .resp status body =>
      if status = 429 then ⟨r.beatmaps, o :: r.trace, 10 :: r.sleeps⟩
      else if status = 200 then
        match body with
        | some data => ⟨data ++ r.beatmaps, o :: r.trace, 1 :: r.sleeps⟩
        | none => ⟨r.beatmaps, o :: r.trace, r.sleeps⟩
      else ⟨r.beatmaps, o :: r.trace, r.sleeps⟩

/-- The number of iterations of Python `range(offset, offset + limit, 10)`:
the ceiling of `limit / 10`, and zero when `limit` is not positive. -/
def numIters (limit : Int) : Nat :=
  (limit.toNat + 9) / 10

/-- The offsets produced by `range(offset, offset + limit, 10)`, in order. -/
def offsetsRange (offset limit : Int) : List Int :=
  (List.range (numIters limit)).map (fun k => offset + 10 * Int.ofNat k)

/-- `retrieve_most_played_beatmaps` from `src/main.py`, with the listing
endpoint abstracted as a function from the call number to its response. -/
def retrieve_most_played_beatmaps {α : Type} (server : Nat → PageResp α)
    (user_id : String) (limit : Int) (offset : Int) : FetchOut α :=
  let _ := user_id
  fetchGo server (offsetsRange offset limit) 0

/-- Concatenation of consecutive pages in page order, then in-page order. -/
def pagesConcat {α : Type} (pages : Nat → List α) : Nat → Nat → List α
  | _, 0 => []
  | k, n + 1 => pages k ++ pagesConcat pages (k + 1) n

/-- Forbidden filename characters as the specification lists them:
`\ / : * ? " < > |`. -/
def isForbidden (c : Char) : Bool :=
  c == '\\' || c == '/' || c == ':' || c == '*' || c == '?' ||
    c == '"' || c == '<' || c == '>' || c == '|'

/-- The specification's description of the sanitizer: delete every
occurrence of a forbidden character, keep everything else in order. -/
def removeBadChars : List Char → List Char
  | [] => []
  | c :: cs => if isForbidden c then removeBadChars cs else c :: removeBadChars cs

/-- The specification's reading of nested-object extraction: a key yields
the nested metadata object only when it holds a non-empty dictionary. -/
def tryKey (r : RecordT) (k : String) : Option RecordT :=
  match dictGet r k with
  | JVal.jobj f => if f.isEmpty then none else some f
  | _ => none

/-- Spec: extract the nested object by trying `beatmapset`, falling back to
`beatmap`. -/
def specNested (r : RecordT) : Option RecordT :=
  match tryKey r "beatmapset" with
  | some f => some f
  | none => tryKey r "beatmap"

/-- Spec: a field yields an identifier only when it holds a truthy value. -/
def tryId (f : RecordT) (k : String) : Option JVal :=
  let v := dictGet f k
  if truthy v then some v else none

/-- Spec: extract the identifier by trying `id`, falling back to
`beatmapset_id`. -/
def specId (f : RecordT) : Option JVal :=
  match tryId f "id" with
  | some v => some v
  | none => tryId f "beatmapset_id"

/-- Spec: the title defaults to `"Unknown Title"` when the key is absent. -/
def specTitle (f : RecordT) : JVal :=
  match List.lookup "title" f with
  | some t => t
  | none => JVal.jstr "Unknown Title"

/-- The specification's description of the per-record step of the batch
loop: absent nested object or absent identifier means a null-placeholder
failure and a skip, otherwise download with the (defaulted) title. -/
def specProcessRecord (r : RecordT) : StepResult :=
  match specNested r with
  | none => StepResult.skipNull
  | some f =>
    match specId f with
    | none => StepResult.skipNull
    | some idv => StepResult.download idv (specTitle f)

/-- Concatenation of a list of lines into one file content. -/
def joinLines : List String → String
  | [] => ""
  | s :: rest => s ++ joinLines rest

/-- Concrete identifier used by witnesses. -/
def idW : JVal := JVal.jint 7

/-- Concrete title used by witnesses (contains forbidden characters). -/
def titleW : String := "a: b?"

/-- Concrete options used by witnesses (the interactive defaults). -/
def optsW : Options := ⟨false, false, false, true⟩

/-- A server that rate-limits the first request and then serves full pages:
the input on which the 429 branch of the fetch loop is exercised. -/
def cserver : Nat → PageResp Nat :=
  fun k => if k = 0 then PageResp.resp 429 none else PageResp.resp 200 (some [k])

/-- A server that always returns a full page of 10 items. -/
def server3 : Nat → PageResp Nat :=
  fun _ => PageResp.resp 200 (some (List.range 10))

/-- Concrete full pages used by the amended-fetch witness. -/
def pagesW : Nat → List Nat :=
  fun k => (List.range 10).map (fun j => 10 * k + j)

/-- A record with an identifier and no title. -/
def r4 : RecordT := [("beatmapset", JVal.jobj [("id", JVal.jint 42)])]

/-- First batch record (downloads fine). -/
def r5a : RecordT :=
  [("beatmapset", JVal.jobj [("id", JVal.jint 1), ("title", JVal.jstr "one")])]

/-- Second batch record (its download fails). -/
def r5b : RecordT :=
  [("beatmapset", JVal.jobj [("id", JVal.jint 2), ("title", JVal.jstr "two")])]

/-- Third batch record (downloads fine). -/
def r5c : RecordT :=
  [("beatmapset", JVal.jobj [("id", JVal.jint 3), ("title", JVal.jstr "three")])]

/-- The three-record batch of the report witness. -/
def l5 : List RecordT := [r5a, r5b, r5c]

/-- A downloader that fails exactly on identifier 2. -/
def dl5 : JVal → JVal → Bool :=
  fun idv _ =>
    match idv with
    | JVal.jint n => decide (n ≠ 2)
    | _ => true

/-- A downloader that always succeeds. -/
def dlW : JVal → JVal → Bool := fun _ _ => true

/-- Nested fields whose identifier candidates are present but falsy. -/
def f10 : RecordT := [("id", JVal.jint 0), ("beatmapset_id", JVal.jstr "")]

/-- A record reached through the `beatmap` fallback whose identifier
candidates are present but falsy. -/
def r10 : RecordT := [("beatmap", JVal.jobj f10)]

/-- Membership in the source regex class coincides with the forbidden-set
predicate written from the specification. -/
theorem mem_badChars_iff (c : Char) : c ∈ badChars ↔ isForbidden c = true := by
  simp [badChars, isForbidden]
  tauto

/-- The regex-class filter and the spec-side character deletion agree. -/
theorem sanitizeChars_eq_removeBadChars (l : List Char) :
    sanitizeChars l = removeBadChars l := by
  induction l with
  | nil => rfl
  | cons c cs ih =>
    by_cases h : isForbidden c = true
    · have hm : c ∈ badChars := (mem_badChars_iff c).mpr h
      simp [sanitizeChars, List.filter_cons, hm, removeBadChars, h] at ih ⊢
      exact ih
    · have hm : c ∉ badChars := fun hc => h ((mem_badChars_iff c).mp hc)
      simp [sanitizeChars, List.filter_cons, hm, removeBadChars, h] at ih ⊢
      exact ih

/-- Filtering with the same predicate twice is the same as filtering once. -/
theorem sanitizeChars_involutive (l : List Char) :
    sanitizeChars (sanitizeChars l) = sanitizeChars l := by
  induction l with
  | nil => rfl
  | cons c cs ih =>
    simp only [sanitizeChars, List.filter_cons] at ih ⊢
    by_cases h : c ∈ badChars <;> simp [h, ih]

/-- The offsets a fetch run attempts are exactly the offsets of the loop
range, whatever the server answers. -/
theorem fetchGo_trace {α : Type} (server : Nat → PageResp α) (os : List Int) (k : Nat) :
    (fetchGo server os k).trace = os := by
  induction os generalizing k with
  | nil => rfl
  | cons o rest ih =>
    cases hs : server k with
    | exc => simp [fetchGo, hs, ih]
    | resp status body =>
      by_cases h429 : status = 429
      · simp [fetchGo, hs, h429, ih]
      · by_cases h200 : status = 200
        · cases body with
          | some data => simp [fetchGo, hs, h429, h200, ih]
          | none => simp [fetchGo, hs, h429, h200, ih]
        · simp [fetchGo, hs, h429, h200, ih]

/-- Against a server of full successful pages, the fetch loop accumulates
the pages in request order. -/
theorem fetchGo_pages {α : Type} (pages : Nat → List α) (os : List Int) (k : Nat) :
    (fetchGo (fun j => PageResp.resp 200 (some (pages j))) os k).beatmaps
      = pagesConcat pages k os.length := by
  induction os generalizing k with
  | nil => rfl
  | cons o rest ih => simp [fetchGo, pagesConcat, ih]

/-- Length of a concatenation of pages of ten items each. -/
theorem pagesConcat_length {α : Type} (pages : Nat → List α)
    (h : ∀ k, (pages k).length = 10) (k n : Nat) :
    (pagesConcat pages k n).length = 10 * n := by
  induction n generalizing k with
  | zero => rfl
  | succ m ih =>
    simp [pagesConcat, List.length_append, h k, ih (k + 1)]
    omega

/-- C9: for every server behaviour, user id, limit and offset, the fetch
loop performs exactly `ceil(limit / 10)` page iterations — `numIters` is
the least multiple-of-ten cover of `limit`, and zero when `limit` is not
positive — because the loop is driven by the fixed offset range and every
branch advances through it. -/
theorem c9_fetch_iteration_count {α : Type} (server : Nat → PageResp α)
    (user_id : String) (limit offset : Int) :
    (retrieve_most_played_beatmaps server user_id limit offset).trace.length = numIters limit
      ∧ limit.toNat ≤ 10 * numIters limit
      ∧ 10 * numIters limit < limit.toNat + 10 := by
  refine ⟨?_, ?_, ?_⟩
  · show (fetchGo server (offsetsRange offset limit) 0).trace.length = numIters limit
    rw [fetchGo_trace, offsetsRange, List.length_map, List.length_range]
  · unfold numIters; omega
  · unfold numIters; omega

/-- C1, evaluated at the failing input: with `limit = 20`, `offset = 0` and
a server that answers 429 to the first request and a full page to every
later one, the fetch run attempts offset 0 exactly once, sleeps 10 seconds,
and then moves on to offset 10 — the rate-limited offset is never
re-requested and its page is missing from the result (the claim says the
same offset is re-requested so that no offset is skipped). -/
theorem c1_rate_limited_offset_not_retried :
    (retrieve_most_played_beatmaps cserver "12345" 20 0).trace = [0, 10]
      ∧ (retrieve_most_played_beatmaps cserver "12345" 20 0).sleeps = [10, 1]
      ∧ (retrieve_most_played_beatmaps cserver "12345" 20 0).beatmaps = [1] := by
  refine ⟨?_, ?_, ?_⟩ <;> rfl

/-- C3, counterexample: with `limit = 15` and a server of full ten-item
pages the fetch returns 20 items, not `limit = 15` — the loop covers the
span with whole pages and overshoots a limit that is not a multiple of
ten. -/
theorem c3_full_pages_returns_limit_items_counterexample :
    (retrieve_most_played_beatmaps server3 "12345" 15 0).beatmaps.length = 20
      ∧ ¬ (retrieve_most_played_beatmaps server3 "12345" 15 0).beatmaps.length = 15 := by
  exact ⟨by decide, by decide⟩

/-- C3, amended: the fetcher pages with fixed page size 10, advancing the
offset by 10 each iteration over the range covering `[offset, offset +
limit)`; if every page request succeeds with exactly 10 items, the result
is the concatenation of the pages in page order then in-page order, with
exactly `10 * ceil(limit / 10)` items (equal to `limit` whenever `limit` is
a non-negative multiple of 10). -/
theorem c3_full_pages_item_count {α : Type} (pages : Nat → List α)
    (user_id : String) (limit offset : Int)
    (h : ∀ k, (pages k).length = 10) :
    (retrieve_most_played_beatmaps (fun j => PageResp.resp 200 (some (pages j)))
        user_id limit offset).beatmaps = pagesConcat pages 0 (numIters limit)
      ∧ (retrieve_most_played_beatmaps (fun j => PageResp.resp 200 (some (pages j)))
          user_id limit offset).beatmaps.length = 10 * numIters limit
      ∧ (retrieve_most_played_beatmaps (fun j => PageResp.resp 200 (some (pages j)))
          user_id limit offset).trace = offsetsRange offset limit := by
  have h1 : (retrieve_most_played_beatmaps (fun j => PageResp.resp 200 (some (pages j)))
      user_id limit offset).beatmaps = pagesConcat pages 0 (numIters limit) := by
    show (fetchGo _ (offsetsRange offset limit) 0).beatmaps = _
    rw [fetchGo_pages, offsetsRange, List.length_map, List.length_range]
  refine ⟨h1, ?_, ?_⟩
  · rw [h1, pagesConcat_length pages h]
  · show (fetchGo _ (offsetsRange offset limit) 0).trace = _
    exact fetchGo_trace _ _ _

/-- Witness for the amended C3 at ten-item pages, `limit = 20`,
`offset = 0`. -/
theorem c3_full_pages_item_count_witness :
    (pagesW 0).length = 10
      ∧ (retrieve_most_played_beatmaps (fun j => PageResp.resp 200 (some (pagesW j)))
          "12345" 20 0).beatmaps.length = 10 * numIters 20 := by
  refine ⟨by decide, ?_⟩
  exact (c3_full_pages_item_count pagesW "12345" 20 0 (fun k => by simp [pagesW])).2.1

/-- C7: the sanitizer's output contains none of the reserved characters
`\ / : * ? " < > |`, is a subsequence of the input (relative order of the
remaining characters preserved), and equals the input with exactly those
characters deleted. -/
theorem c7_sanitize_removes_reserved (name : String) :
    ((sanitize_filename name).toList.all (fun c => !(decide (c ∈ badChars))) = true)
      ∧ List.Sublist (sanitize_filename name).toList name.toList
      ∧ (sanitize_filename name).toList = removeBadChars name.toList := by
  have htl : (sanitize_filename name).toList = sanitizeChars name.toList := rfl
  refine ⟨?_, ?_, ?_⟩
  · rw [htl, List.all_eq_true]
    intro c hc
    have hp := List.of_mem_filter hc
    simpa using hp
  · rw [htl]
    exact List.filter_sublist _
  · rw [htl]
    exact sanitizeChars_eq_removeBadChars _

/-- C8: the sanitizer is idempotent — every sanitized string is a fixed
point of the sanitizer. -/
theorem c8_sanitize_idempotent (name : String) :
    sanitize_filename (sanitize_filename name) = sanitize_filename name := by
  show String.mk (sanitizeChars (sanitizeChars name.toList)) = String.mk (sanitizeChars name.toList)
  exact congrArg String.mk (sanitizeChars_involutive name.toList)

/-- C2: the single-item downloader returns success exactly on status 200,
and for any other status the file slot stays empty, because the status is
compared before the output file is opened. -/
theorem c2_success_iff_status_200 (beatmapset_id : JVal) (song_title : String)
    (options : Options) (status : Nat) (chunks : List (List Nat))
    (writeFail : Option (Nat × String)) :
    ((download_single_beatmap beatmapset_id song_title options
        (DlEvent.ok status chunks none)).success = true ↔ status = 200)
      ∧ (status ≠ 200 →
          (download_single_beatmap beatmapset_id song_title options
            (DlEvent.ok status chunks writeFail)).file = none) := by
  constructor
  · by_cases h : status = 200 <;> simp [download_single_beatmap, h]
  · intro h
    simp [download_single_beatmap, h]

/-- Witness for C2 at status 404: the response is not a 200 and no file is
produced. -/
theorem c2_success_iff_status_200_witness :
    (404 : Nat) ≠ 200
      ∧ (download_single_beatmap idW titleW optsW
          (DlEvent.ok 404 [[1, 2]] none)).file = none :=
  ⟨by decide, (c2_success_iff_status_200 idW titleW optsW 404 [[1, 2]] none).2 (by decide)⟩

/-- C6: every exception actually raised inside the downloader's `try` —
during the request or during the file write — yields the failure return
value and one log line naming the identifier and the title; the model
function is total, so nothing propagates to the caller. -/
theorem c6_exception_caught (beatmapset_id : JVal) (song_title : String)
    (options : Options) (ev : DlEvent) (h : excRaised ev = true) :
    (download_single_beatmap beatmapset_id song_title options ev).success = false
      ∧ (download_single_beatmap beatmapset_id song_title options ev).log
          = [excMessage beatmapset_id song_title (excMsgOf ev)] := by
  cases ev with
  | raiseEarly msg => exact ⟨rfl, rfl⟩
  | ok status chunks writeFail =>
    simp only [excRaised, Bool.and_eq_true, decide_eq_true_eq] at h
    obtain ⟨h200, hsome⟩ := h
    cases writeFail with
    | none => simp at hsome
    | some p =>
      subst h200
      exact ⟨rfl, rfl⟩

/-- Witness for C6 at an exception raised by the request itself. -/
theorem c6_exception_caught_witness :
    excRaised (DlEvent.raiseEarly "boom") = true
      ∧ (download_single_beatmap idW titleW optsW (DlEvent.raiseEarly "boom")).success = false
      ∧ (download_single_beatmap idW titleW optsW (DlEvent.raiseEarly "boom")).log
          = [excMessage idW titleW "boom"] := by
  have h := c6_exception_caught idW titleW optsW (DlEvent.raiseEarly "boom") rfl
  exact ⟨rfl, h.1, h.2⟩

/-- A well-formed record has a dictionary-with-scalar-identifier nested
value, or a falsy one. -/
theorem wfRecord_elim (r : RecordT) (h : wfRecord r = true) :
    (∃ f, chosenNested r = JVal.jobj f ∧ isScalar (chosenId f) = true)
      ∨ truthy (chosenNested r) = false := by
  unfold wfRecord at h
  cases hc : chosenNested r with
  | jobj f => exact Or.inl ⟨f, rfl, by rw [hc] at h; simpa using h⟩
  | jnull => exact Or.inr rfl
  | jbool b => rw [hc] at h; exact Or.inr (by simpa using h)
  | jint n => rw [hc] at h; exact Or.inr (by simpa using h)
  | jstr s => rw [hc] at h; exact Or.inr (by simpa using h)
  | jlist l => rw [hc] at h; exact Or.inr (by simpa using h)

/-- A falsy key value never yields a nested object under the spec's
reading. -/
theorem tryKey_eq_none (r : RecordT) (k : String)
    (h : truthy (dictGet r k) = false) : tryKey r k = none := by
  unfold tryKey
  cases hd : dictGet r k with
  | jobj f =>
    rw [hd] at h
    simp only [truthy] at h
    have h' : f.isEmpty = true := by simpa using h
    simp [h']
  | jnull => rfl
  | jbool b => rfl
  | jint n => rfl
  | jstr s => rfl
  | jlist l => rfl

/-- A truthy dictionary key value yields exactly its fields under the
spec's reading. -/
theorem tryKey_eq_some (r : RecordT) (k : String) (f : RecordT)
    (hd : dictGet r k = JVal.jobj f) (ht : truthy (dictGet r k) = true) :
    tryKey r k = some f := by
  unfold tryKey
  rw [hd] at ht ⊢
  simp only [truthy] at ht
  have ht' : f.isEmpty = false := by simpa using ht
  simp [ht']

/-- The spec's identifier extraction returns exactly the code's
truthiness-or chain: the chained value when it is truthy, nothing when it
is falsy. -/
theorem specId_or (f : RecordT) :
    (truthy (chosenId f) = true → specId f = some (chosenId f))
      ∧ (truthy (chosenId f) = false → specId f = none) := by
  unfold specId tryId chosenId pyOr
  cases ht1 : truthy (dictGet f "id") with
  | true => simp [ht1]
  | false =>
    cases ht2 : truthy (dictGet f "beatmapset_id") with
    | true => simp [ht1, ht2]
    | false => simp [ht1, ht2]

/-- When the chosen nested value is falsy, the code skips with a null
placeholder and the spec's description does the same. -/
theorem processRecord_eq_of_falsy (r : RecordT)
    (h : truthy (chosenNested r) = false) :
    processRecord r = specProcessRecord r := by
  have hspec : specNested r = none := by
    unfold specNested
    unfold chosenNested pyOr at h
    cases hta : truthy (dictGet r "beatmapset") with
    | true => rw [if_pos hta] at h; rw [hta] at h; simp at h
    | false =>
      rw [if_neg (by simp [hta])] at h
      rw [tryKey_eq_none r "beatmapset" hta, tryKey_eq_none r "beatmap" h]
  unfold processRecord specProcessRecord
  rw [hspec]
  simp [h]

/-- C4: on every record the Python run completes on, the batch loop's
defensive extraction — nested object by `beatmapset` then `beatmap`,
identifier by `id` then `beatmapset_id`, null-placeholder failure and skip
on absence, `"Unknown Title"` default for a missing title — coincides with
the specification's description of it. -/
theorem c4_record_extraction (r : RecordT) (h : wfRecord r = true) :
    processRecord r = specProcessRecord r := by
  rcases wfRecord_elim r h with ⟨f, hf, _⟩ | hfalse
  · cases hch : truthy (chosenNested r) with
    | false => exact processRecord_eq_of_falsy r hch
    | true =>
      have hspec : specNested r = some f := by
        unfold specNested
        unfold chosenNested pyOr at hf hch
        cases hta : truthy (dictGet r "beatmapset") with
        | true =>
          rw [if_pos hta] at hf
          rw [tryKey_eq_some r "beatmapset" f hf hta]
        | false =>
          rw [if_neg (by simp [hta])] at hf hch
          rw [tryKey_eq_none r "beatmapset" hta, tryKey_eq_some r "beatmap" f hf hch]
      unfold processRecord specProcessRecord
      rw [hspec, hf]
      rw [hf] at hch
      simp only [hch, if_true]
      have hid : pyOr (jget (JVal.jobj f) "id") (jget (JVal.jobj f) "beatmapset_id")
          = chosenId f := rfl
      rw [hid]
      cases hidt : truthy (chosenId f) with
      | true =>
        rw [(specId_or f).1 hidt]
        simp only [hidt, if_true]
        have htitle : jgetD (JVal.jobj f) "title" (JVal.jstr "Unknown Title")
            = specTitle f := rfl
        rw [htitle]
      | false =>
        rw [(specId_or f).2 hidt]
        simp [hidt]
  · exact processRecord_eq_of_falsy r hfalse

/-- Witness for C4 at a record with an identifier and no title. -/
theorem c4_record_extraction_witness :
    wfRecord r4 = true ∧ processRecord r4 = specProcessRecord r4 :=
  ⟨rfl, c4_record_extraction r4 rfl⟩

/-- The report-writing loop writes exactly the truthy entries, one line
each, in accumulation order. -/
theorem writeFails_eq (l : List JVal) :
    writeFails l = joinLines ((l.filter truthy).map (fun v => pyStr v ++ "\n")) := by
  induction l with
  | nil => rfl
  | cons x xs ih =>
    cases hx : truthy x with
    | true => simp [writeFails, List.filter_cons, hx, joinLines, ih]
    | false => simp [writeFails, List.filter_cons, hx, joinLines, ih]

/-- C5: the report file is written if and only if the accumulated failure
list is non-empty, and then its content is every non-null (truthy) failure
identifier, rendered as one line each, in accumulation order; an empty
failure list leaves the file untouched. -/
theorem c5_failure_report (dl : JVal → JVal → Bool) (beatmaps : List RecordT)
    (h : ∀ r ∈ beatmaps, wfRecord r = true) :
    ((download_beatmaps dl beatmaps).2 = none ↔ (download_beatmaps dl beatmaps).1 = [])
      ∧ (download_beatmaps dl beatmaps).2
          = (if (download_beatmaps dl beatmaps).1.isEmpty then none
             else some (joinLines (((download_beatmaps dl beatmaps).1.filter truthy).map
                 (fun v => pyStr v ++ "\n")))) := by
  have _ := h
  have e : download_beatmaps dl beatmaps
      = (batchGo dl beatmaps,
          if (batchGo dl beatmaps).isEmpty then none
          else some (writeFails (batchGo dl beatmaps))) := rfl
  rw [e]
  constructor
  · cases hb : batchGo dl beatmaps with
    | nil => simp
    | cons x xs => simp
  · cases hb : batchGo dl beatmaps with
    | nil => simp
    | cons x xs => simp [writeFails_eq]

/-- Witness for C5 at the spec's three-record batch whose second download
fails. -/
theorem c5_failure_report_witness :
    (wfRecord r5a = true ∧ wfRecord r5b = true ∧ wfRecord r5c = true)
      ∧ ((download_beatmaps dl5 l5).2 = none ↔ (download_beatmaps dl5 l5).1 = [])
      ∧ (download_beatmaps dl5 l5).2
          = (if (download_beatmaps dl5 l5).1.isEmpty then none
             else some (joinLines (((download_beatmaps dl5 l5).1.filter truthy).map
                 (fun v => pyStr v ++ "\n")))) := by
  have h : ∀ r ∈ l5, wfRecord r = true := by decide
  exact ⟨⟨rfl, rfl, rfl⟩, (c5_failure_report dl5 l5 h).1, (c5_failure_report dl5 l5 h).2⟩

/-- C10: a present-but-falsy nested value or identifier is treated exactly
like an absent one — the truthiness-or falls through to the fallback key,
and when the fallback is falsy too the record becomes a null-placeholder
failure with no download attempted (the result is `[jnull]` for every
downloader `dl`). -/
theorem c10_falsy_treated_as_absent (r : RecordT) (dl : JVal → JVal → Bool)
    (f : RecordT) :
    (truthy (dictGet r "beatmapset") = false → chosenNested r = dictGet r "beatmap")
      ∧ (truthy (dictGet f "id") = false → chosenId f = dictGet f "beatmapset_id")
      ∧ (truthy (chosenNested r) = false → batchGo dl [r] = [JVal.jnull])
      ∧ (chosenNested r = JVal.jobj f → truthy (chosenId f) = false →
          batchGo dl [r] = [JVal.jnull]) := by
  refine ⟨?_, ?_, ?_, ?_⟩
  · intro h
    simp [chosenNested, pyOr, h]
  · intro h
    simp [chosenId, pyOr, h]
  · intro h
    simp [batchGo, processRecord, h]
  · intro hc hid
    simp only [batchGo, processRecord]
    rw [hc]
    cases he : f.isEmpty with
    | true => simp [truthy, he]
    | false =>
      have ht : truthy (JVal.jobj f) = true := by simp [truthy, he]
      simp only [ht, if_true]
      have hid' : pyOr (jget (JVal.jobj f) "id") (jget (JVal.jobj f) "beatmapset_id")
          = chosenId f := rfl
      rw [hid']
      simp [hid]

/-- Witness for C10 at a record reached through the `beatmap` fallback
whose identifier is present as `0` and whose fallback identifier is the
empty string. -/
theorem c10_falsy_treated_as_absent_witness :
    (chosenNested r10 = JVal.jobj f10 ∧ truthy (chosenId f10) = false)
      ∧ batchGo dlW [r10] = [JVal.jnull] :=
  ⟨⟨rfl, rfl⟩, (c10_falsy_treated_as_absent r10 dlW f10).2.2.2 rfl rfl⟩

end OsuDl
